import Mathlib

/-!
Shallow embedding of the researchq question/answer/cache/workflow core
(`researchq/classes.py`, `researchq/session_storage.py`, `robora/workflow.py`,
`autora/llm.py`), together with theorems settling the behavioural claims of
the specification against it.

Conventions of the embedding:
* Python `Optional[str]` becomes `Option String`; Python truthiness of such a
  value (`if response.error:`) is `strTruthy`.
* Code that can raise (`Template.substitute` raising `KeyError`, `assert`,
  exceptions from a query handler) returns `Except String _`.
* The opaque JSON payload of a response is an uninterpreted `String`; the
  pluggable field-extraction and pydantic validation steps are function
  parameters, as they are pluggable collaborators in the source.
-/

namespace Researchq

/-- One piece of a `string.Template`: literal text or a named `$placeholder`. -/
inductive TPart : Type
  | lit (s : String)
  | var (name : String)
deriving DecidableEq, Repr

/-- A `string.Template`, represented by its parsed sequence of parts. -/
abbrev Template := List TPart

/-- `Template.substitute(**word_set)`: replaces each placeholder by the word
bound to it, raising `KeyError` when a placeholder has no binding. -/
def substitute (t : Template) (ws : List (String × String)) : Except String String :=
  match t with
  | [] => .ok ""
  | .lit s :: rest => do
      let r ← substitute rest ws
      .ok (s ++ r)
  | .var n :: rest =>
      match ws.lookup n with
      | some v => do
          let r ← substitute rest ws
          .ok (v ++ r)
      | none => .error ("KeyError: " ++ n)

/-- Python truthiness of an `Optional[str]`: `None` and `""` are falsy. -/
def strTruthy : Option String → Bool
  | none => false
  | some s => !s.isEmpty

/-- `researchq.classes.Question`: a word set plus a template.  The pydantic
`response_model` carried by the source class is abstracted away; it only
feeds the pluggable validation step, which is a function parameter here. -/
structure Question where
  word_set : List (String × String)
  template : Template
deriving DecidableEq, Repr

/-- `Question.get_string`: the template with the word set substituted. -/
def Question.get_string (q : Question) : Except String String :=
  substitute q.template q.word_set

/-- The derived attribute `value` used by the workflow and the storage key
derivation: the fully substituted question string (same computation as
`get_string`). -/
def Question.value (q : Question) : Except String String :=
  q.get_string

/-- `researchq.classes.QueryResponse`: optional raw payload, optional error. -/
structure QueryResponse where
  full_response : Option String
  error : Option String
deriving DecidableEq, Repr

/-- `researchq.classes.Answer`.  Its `error` attribute is declared with class
default `None` in the source; no constructor argument sets it. -/
structure Answer where
  word_set : List (String × String)
  question_template : Template
  question_value : String
  full_response : Option String
  fields : List (String × String)
  error : Option String
deriving DecidableEq, Repr

/-- `Answer.from_question`: builds an Answer from a question, the raw payload
and the extracted fields.  It reads `question.get_string` (which can raise)
and never assigns `error`, so the built Answer always has `error = none`. -/
def Answer.from_question (q : Question) (full_response : Option String)
    (fields : List (String × String)) : Except String Answer := do
  let v ← q.get_string
  .ok { word_set := q.word_set
        question_template := q.template
        question_value := v
        full_response := full_response
        fields := fields
        error := none }

/-- `researchq.classes.QuestionSet`: a template plus per-parameter candidate
word lists, in insertion order. -/
structure QuestionSet where
  template : Template
  word_sets : List (String × List String)
deriving DecidableEq, Repr

/-- `QuestionSet.get_count`: the product of the word-list lengths. -/
def QuestionSet.get_count (qs : QuestionSet) : Nat :=
  (qs.word_sets.map (fun p => p.2.length)).prod

/-- `itertools.product`: row-major cartesian product of a list of lists (the
last list varies fastest). -/
def pyProduct {α : Type} : List (List α) → List (List α)
  | [] => [[]]
  | l :: ls => l.flatMap (fun x => (pyProduct ls).map (fun c => x :: c))

/-- `QuestionSet.get_questions`: one Question per element of the cartesian
product of the word lists, its word set zipping the parameter names with the
chosen combination. -/
def QuestionSet.get_questions (qs : QuestionSet) : List Question :=
  (pyProduct (qs.word_sets.map Prod.snd)).map
    (fun combo => { word_set := (qs.word_sets.map Prod.fst).zip combo
                    template := qs.template })

/-! ## Storage (`researchq/session_storage.py`) -/

/-- The in-memory store of `SessionStorageProvider`: a map from question key
to the stored `QueryResponse`. -/
abbrev Storage := String → Option QueryResponse

/-- `SessionStorageProvider._get_question_key`: the question's derived
`value` string (raising if the template cannot be substituted). -/
def get_question_key (q : Question) : Except String String :=
  q.value

/-- `SessionStorageProvider.save_response`: store under the question key. -/
def save_response (s : Storage) (q : Question) (r : QueryResponse) :
    Except String Storage := do
  let k ← get_question_key q
  .ok (fun k2 => if k2 = k then some r else s k2)

/-- `SessionStorageProvider.get_response`: look up by the question key. -/
def get_response (s : Storage) (q : Question) :
    Except String (Option QueryResponse) := do
  let k ← get_question_key q
  .ok (s k)

/-! ## Workflow (`robora/workflow.py`) -/

/-- The query-handler collaborator: a remote query (which may raise) and the
pluggable field extraction over a successful raw payload. -/
structure QueryHandler where
  query : String → Except String QueryResponse
  extract_fields : String → List (String × String)

/-- `Workflow.build_answer`: a `None` response is replaced by
`QueryResponse(error="No response")`; an error-free response must carry a
payload (`assert response.full_response is not None`) whose fields are
extracted; an error-bearing response gets an empty field mapping.  Either way
the Answer is assembled by `Answer.from_question`. -/
def build_answer (h : QueryHandler) (q : Question) (response : Option QueryResponse) :
    Except String Answer :=
  let response := match response with
    | none => QueryResponse.mk none (some "No response")
    | some r => r
  if strTruthy response.error then
    Answer.from_question q response.full_response []
  else
    match response.full_response with
    | none => .error "AssertionError: full_response is None"
    | some payload =>
        Answer.from_question q response.full_response (h.extract_fields payload)

/-- `Workflow.ask`: cache lookup (unless `overwrite`), flushing a cached
response whose `error` is truthy; on a miss, query, persist, and build the
Answer.  The returned `Nat` counts the remote queries issued by the call. -/
def ask (h : QueryHandler) (storage : Storage) (q : Question) (overwrite : Bool) :
    Except String (Answer × Storage × Nat) := do
  let cached ← if overwrite then pure none else get_response storage q
  let cached := match cached with
    | some r => if strTruthy r.error then none else some r
    | none => none
  match cached with
  | some r => do
      let a ← build_answer h q (some r)
      .ok (a, storage, 0)
  | none => do
      let prompt ← q.value
      let r ← h.query prompt
      let storage2 ← save_response storage q r
      let a ← build_answer h q (some r)
      .ok (a, storage2, 1)

/-- `Workflow._ask_without_cache_check`: query, persist, build the Answer. -/
def ask_without_cache_check (h : QueryHandler) (storage : Storage) (q : Question) :
    Except String (Answer × Storage) := do
  let prompt ← q.value
  let r ← h.query prompt
  let storage2 ← save_response storage q r
  let a ← build_answer h q (some r)
  .ok (a, storage2)

/-- The doc sweep of `Workflow.ask_multiple_stream`: classify each question,
in expansion order, as a doc hit (cached and `not cached_response.error`) or
a doc miss; with `overwrite` every question is a miss and the cache is not
read. -/
def doc_sweep (storage : Storage) (overwrite : Bool) :
    List Question → Except String (List (Question × QueryResponse) × List Question)
  | [] => .ok ([], [])
  | q :: rest =>
      if overwrite then do
        let (hs, ms) ← doc_sweep storage overwrite rest
        .ok (hs, q :: ms)
      else do
        let cached ← get_response storage q
        let (hs, ms) ← doc_sweep storage overwrite rest
        match cached with
        | some r =>
            if strTruthy r.error then .ok (hs, q :: ms) else .ok ((q, r) :: hs, ms)
        | none => .ok (hs, q :: ms)

/-- The Answer a miss worker produces for one question: the Answer component
of `ask_without_cache_check`.  Concurrent interleaving of the workers affects
only the shared storage, never this value. -/
def miss_result (h : QueryHandler) (storage : Storage) (q : Question) :
    Except String Answer :=
  (ask_without_cache_check h storage q).map Prod.fst

/-- The consumer's view of an async generator: yielded Answers until the
first raised exception, which terminates the stream. -/
def drain : List (Except String Answer) → List Answer × Option String
  | [] => ([], none)
  | .ok a :: rest =>
      let (as2, e) := drain rest
      (a :: as2, e)
  | .error e :: _ => ([], some e)

/-- `Workflow.ask_multiple_stream`: expand the question set, sweep the cache,
yield the hit Answers in sweep order, then yield the miss Answers in
completion order.  `order` is the completion order of the miss workers, as a
list of indices into the miss list (any permutation of them can occur).  A
raised exception propagates to the consumer and ends the stream. -/
def ask_multiple_stream (h : QueryHandler) (storage : Storage) (qs : QuestionSet)
    (overwrite : Bool) (order : List Nat) : List Answer × Option String :=
  let questions := qs.get_questions
  match doc_sweep storage overwrite questions with
  | .error e => ([], some e)
  | .ok (hits, misses) =>
      let hitResults := hits.map (fun p => build_answer h p.1 (some p.2))
      let missResults := (order.filterMap (fun i => misses[i]?)).map (miss_result h storage)
      drain (hitResults ++ missResults)

/-! ## Structured query client (`autora/llm.py`, `query_sonar_structured`) -/

/-- A successful HTTP response body, already decoded as JSON: opaque except
for the message content that the chained `.get` defaults extract (that
extraction is total in the source, defaulting to the empty string). -/
structure RawResponse where
  content : String
deriving DecidableEq, Repr

/-- What one iteration of the retry loop observes from the transport:
an HTTP status error (`raise_for_status`), an empty body, a body that is not
JSON (`response.json()` raises), a decoded JSON body, or any other exception
(caught by the bare `except Exception` clause). -/
inductive AttemptOutcome : Type
  | httpError (status : Nat) (text : String)
  | emptyBody
  | badJsonBody (msg : String)
  | body (raw : RawResponse)
  | otherExc (msg : String)
deriving DecidableEq, Repr

/-- The result dictionary of `query_sonar_structured`. -/
structure SonarResult where
  raw_response : Option RawResponse
  structured_data : Option String
  parsing_success : Bool
  parsing_error : Option String
  retries_used : Nat
deriving DecidableEq, Repr

/-- The initial result dictionary. -/
def sonarInit : SonarResult :=
  { raw_response := none
    structured_data := none
    parsing_success := false
    parsing_error := none
    retries_used := 0 }

/-- Strip a reasoning preamble: when the content starts with the think tag
and contains its closing tag, keep only what follows the first closing tag;
either way the remainder is stripped of surrounding whitespace. -/
def stripThink (content : String) : String :=
  if content.startsWith "<think>" && (content.splitOn "</think>").length > 1 then
    (String.intercalate "</think>" ((content.splitOn "</think>").drop 1)).trim
  else
    content.trim

/-- The retry loop of `query_sonar_structured`.  `parse` embeds
`json.loads` plus `response_model.model_validate` over the (think-stripped)
content; `outcomes` gives what attempt number `i` observes.  Returns the
result dictionary and the number of attempts performed.  `fuel` is
`max_retries - attempt`, so the loop runs `for attempt in range(max_retries)`. -/
def sonar_loop (parse : String → Except String String) (outcomes : Nat → AttemptOutcome)
    (max_retries : Nat) : Nat → Nat → SonarResult → SonarResult × Nat
  | attempt, 0, res => (res, attempt)
  | attempt, fuel + 1, res =>
      match outcomes attempt with
      | .httpError status text =>
          let res := { res with
            parsing_error := some ("HTTP " ++ toString status ++ ": " ++ text) }
          if status == 400 then (res, attempt + 1)
          else if attempt == max_retries - 1 then (res, attempt + 1)
          else sonar_loop parse outcomes max_retries (attempt + 1) fuel res
      | .emptyBody =>
          let res := { res with parsing_error := some "Empty response from API" }
          if attempt == max_retries - 1 then (res, attempt + 1)
          else sonar_loop parse outcomes max_retries (attempt + 1) fuel res
      | .badJsonBody msg =>
          let res := { res with parsing_error := some msg }
          if attempt == max_retries - 1 then (res, attempt + 1)
          else sonar_loop parse outcomes max_retries (attempt + 1) fuel res
      | .body raw =>
          let res := { res with raw_response := some raw, retries_used := attempt }
          if raw.content.isEmpty then
            let res := { res with parsing_error := some "Empty content in API response" }
            if attempt == max_retries - 1 then (res, attempt + 1)
            else sonar_loop parse outcomes max_retries (attempt + 1) fuel res
          else
            match parse (stripThink raw.content) with
            | .ok s =>
                ({ res with structured_data := some s, parsing_success := true },
                 attempt + 1)
            | .error e =>
                let res := { res with parsing_error := some e }
                if attempt == max_retries - 1 then (res, attempt + 1)
                else sonar_loop parse outcomes max_retries (attempt + 1) fuel res
      | .otherExc msg =>
          ({ res with parsing_error := some ("Unexpected error: " ++ msg) }, attempt + 1)

/-- `query_sonar_structured`: run the retry loop from attempt 0 on the
initial result dictionary.  It always returns the result dictionary (never
raises); the second component is the number of attempts performed. -/
def query_sonar_structured (parse : String → Except String String)
    (outcomes : Nat → AttemptOutcome) (max_retries : Nat) : SonarResult × Nat :=
  sonar_loop parse outcomes max_retries 0 max_retries sonarInit

/-! ## Bounded worker pool (`asyncio.Semaphore` in `ask_multiple_stream`)

Each doc-miss question becomes one task; a task enters its critical section
(`async with semaphore`) by acquiring a permit — possible only while the
counter is positive — performs its remote query while holding it, and
releases the permit when done.  A state records the semaphore counter and
the phase of every task. -/

/-- The phase of one miss task: not yet inside the semaphore block, holding
a permit with its remote query in flight, or finished (permit released). -/
inductive TaskPhase : Type
  | notStarted
  | inFlight
  | done
deriving DecidableEq, Repr

/-- 1 for a task whose remote query is in flight, 0 otherwise. -/
def phaseWeight : TaskPhase → Nat
  | .inFlight => 1
  | _ => 0

/-- The number of in-flight remote queries in a task list. -/
def inflightCount (ts : List TaskPhase) : Nat :=
  (ts.map phaseWeight).sum

/-- A scheduler state: the semaphore counter plus every task's phase. -/
structure PoolState where
  sem : Nat
  tasks : List TaskPhase
deriving DecidableEq, Repr

/-- One scheduler transition: `acquire` (semaphore `__aenter__`: decrement a
positive counter and start the task's query) or `release` (semaphore
`__aexit__`: the query finishes and the counter is incremented). -/
inductive PoolStep : PoolState → PoolState → Prop
  | acquire (s : PoolState) (i : Nat)
      (h : s.tasks.get? i = some TaskPhase.notStarted) (hs : 0 < s.sem) :
      PoolStep s ⟨s.sem - 1, s.tasks.set i TaskPhase.inFlight⟩
  | release (s : PoolState) (i : Nat)
      (h : s.tasks.get? i = some TaskPhase.inFlight) :
      PoolStep s ⟨s.sem + 1, s.tasks.set i TaskPhase.done⟩

/-- The dispatch phase starts with `asyncio.Semaphore(max_workers)` and one
not-yet-started task per doc-miss question. -/
def pool_init (workers missCount : Nat) : PoolState :=
  ⟨workers, List.replicate missCount TaskPhase.notStarted⟩

/-! ## Concrete fixtures used to evaluate the model -/

/-- A literal question whose substituted string is the single letter q. -/
def qLit : Question := { word_set := [], template := [TPart.lit "q"] }

/-- The empty session storage. -/
def emptyStorage : Storage := fun _ => none

/-- A handler whose queries always succeed with an opaque payload. -/
def demoHandler : QueryHandler :=
  { query := fun _ => Except.ok ⟨some "payload", none⟩
    extract_fields := fun p => [("field", p)] }

/-- A handler whose queries always return an error-bearing response. -/
def failHandler : QueryHandler :=
  { query := fun _ => Except.ok ⟨none, some "boom"⟩
    extract_fields := fun p => [("field", p)] }

/-- Two successive `ask` calls for the same question without overwrite,
threading the storage from the first call into the second; returns both
Answers and each call's remote-query count. -/
def ask_twice (h : QueryHandler) (storage : Storage) (q : Question) :
    Except String (Answer × Answer × Nat × Nat) := do
  let (a1, s1, n1) ← ask h storage q false
  let (a2, _, n2) ← ask h s1 q false
  .ok (a1, a2, n1, n2)

/-! ## Claims about answer assembly (build_answer) -/

/-- C10: `build_answer` is partial — an error-free response whose payload is
null fails the `assert response.full_response is not None` instead of
returning an Answer, while a `None` response is first replaced by
`QueryResponse(error="No response")` and assembled with empty fields. -/
theorem build_answer_partiality (h : QueryHandler) (q : Question) (s : String)
    (r : QueryResponse) (hv : q.value = Except.ok s)
    (he : r.error = none) (hf : r.full_response = none) :
    build_answer h q (some r) = Except.error "AssertionError: full_response is None" ∧
    build_answer h q none = Except.ok
      { word_set := q.word_set, question_template := q.template, question_value := s,
        full_response := none, fields := [], error := none } := by
  have hg : q.get_string = Except.ok s := hv
  constructor
  · simp [build_answer, he, hf, strTruthy]
  · have h0 : build_answer h q none = Answer.from_question q none [] := rfl
    rw [h0]
    unfold Answer.from_question
    rw [hg]
    rfl

/-- Witness for C10 at the literal question and a payload-free response. -/
theorem build_answer_partiality_witness :
    build_answer demoHandler qLit (some ⟨none, none⟩) =
      Except.error "AssertionError: full_response is None" ∧
    build_answer demoHandler qLit none = Except.ok
      { word_set := [], question_template := [TPart.lit "q"], question_value := "q",
        full_response := none, fields := [], error := none } :=
  build_answer_partiality demoHandler qLit "q" ⟨none, none⟩ rfl rfl rfl

/-- C1: evaluating the assembly of an Answer from a response carrying the
error "boom": the extracted fields are the empty mapping, but the Answer's
error is none — `Answer.from_question` never assigns the error attribute, so
the response's error is dropped rather than populated. -/
theorem build_answer_drops_error :
    build_answer demoHandler qLit (some ⟨none, some "boom"⟩) = Except.ok
      { word_set := [], question_template := [TPart.lit "q"], question_value := "q",
        full_response := none, fields := [], error := none } := rfl

/-! ## Claims about the storage key contract -/

/-- C7: the storage keys a Question by its substituted string: after a put
for q1, a get for q2 sees the stored response exactly when the two rendered
strings coincide, and sees the prior contents of the store otherwise. -/
theorem storage_key_contract (s : Storage) (q1 q2 : Question) (r : QueryResponse)
    (k1 k2 : String) (s2 : Storage)
    (h1 : q1.value = Except.ok k1) (h2 : q2.value = Except.ok k2)
    (hs : save_response s q1 r = Except.ok s2) :
    get_response s2 q2 = Except.ok (if k2 = k1 then some r else s k2) ∧
    get_response s q2 = Except.ok (s k2) := by
  unfold save_response get_question_key at hs
  rw [h1] at hs
  injection hs with hs2
  subst hs2
  constructor
  · have h0 : get_response (fun k2 => if k2 = k1 then some r else s k2) q2 =
        (q2.value.map (fun k => if k = k1 then some r else s k)) := rfl
    rw [h0, h2]
    rfl
  · have h0 : get_response s q2 = (q2.value.map s) := rfl
    rw [h0, h2]
    rfl

/-- Witness for C7: storing a response for the literal question makes it
visible to a second get for the same rendered string. -/
theorem storage_key_contract_witness :
    get_response (fun kk => if kk = "q" then some ⟨some "payload", none⟩ else emptyStorage kk)
        qLit =
      Except.ok (if "q" = "q" then some ⟨some "payload", none⟩ else emptyStorage "q") ∧
    get_response emptyStorage qLit = Except.ok (emptyStorage "q") :=
  storage_key_contract emptyStorage qLit qLit ⟨some "payload", none⟩ "q" "q"
    (fun kk => if kk = "q" then some ⟨some "payload", none⟩ else emptyStorage kk)
    rfl rfl rfl

/-! ## Claims about ask idempotence -/

/-- Reduction of a successful bind in the Except monad. -/
theorem ok_bind {ε α β : Type} (x : α) (f : α → Except ε β) :
    (Except.ok x >>= f) = f x := rfl

/-- C4 counterexample: when the remote query returns an error-bearing
response, the first ask stores it, the second ask flushes the stored error
and queries again — each of the two calls issues one remote query, so two in
total, not at most one. -/
theorem ask_twice_error_requeries :
    (ask_twice failHandler emptyStorage qLit).map (fun t => (t.2.2.1, t.2.2.2)) =
      Except.ok (1, 1) ∧ ¬(1 + 1 ≤ 1) := ⟨rfl, by decide⟩

/-- C4 amended: for a question with no stored entry whose query returns an
error-free response carrying a payload, calling ask twice without overwrite
issues exactly one remote query in total: the first call queries and
persists, the second call is a cache hit issuing no query and returning the
identical Answer. -/
theorem ask_idempotent_on_success (h : QueryHandler) (storage : Storage) (q : Question)
    (k : String) (r : QueryResponse) (a : Answer)
    (hv : q.value = Except.ok k) (hc : storage k = none)
    (hq : h.query k = Except.ok r) (he : strTruthy r.error = false)
    (ha : build_answer h q (some r) = Except.ok a) :
    ask_twice h storage q = Except.ok (a, a, 1, 0) := by
  have e1 : ask h storage q false =
      Except.ok (a, (fun kk => if kk = k then some r else storage kk), 1) := by
    simp only [ask, get_response, get_question_key, save_response, Bool.false_eq_true,
      if_false, hv, ok_bind, hc, hq, ha]
  have e2 : ask h (fun kk => if kk = k then some r else storage kk) q false =
      Except.ok (a, (fun kk => if kk = k then some r else storage kk), 0) := by
    simp only [ask, get_response, get_question_key, Bool.false_eq_true, if_false,
      hv, ok_bind, if_pos, he, ha]
  simp only [ask_twice, e1, ok_bind, e2]

/-- Witness for the amended C4: a fresh literal question against a handler
that answers with a payload is queried once and then served from cache. -/
theorem ask_idempotent_on_success_witness :
    ask_twice demoHandler emptyStorage qLit = Except.ok
      ({ word_set := [], question_template := [TPart.lit "q"], question_value := "q",
         full_response := some "payload", fields := [("field", "payload")], error := none },
       { word_set := [], question_template := [TPart.lit "q"], question_value := "q",
         full_response := some "payload", fields := [("field", "payload")], error := none },
       1, 0) :=
  ask_idempotent_on_success demoHandler emptyStorage qLit "q"
    ⟨some "payload", none⟩
    { word_set := [], question_template := [TPart.lit "q"], question_value := "q",
      full_response := some "payload", fields := [("field", "payload")], error := none }
    rfl rfl rfl rfl rfl

/-! ## Claims about QuestionSet expansion -/

/-- Sum of a constant-valued map. -/
theorem sum_map_const_nat {α : Type} (l : List α) (c : Nat) :
    (l.map (fun _ => c)).sum = l.length * c := by
  induction l with
  | nil => simp
  | cons x xs ih => simp [ih, Nat.succ_mul]; omega

/-- The row-major cartesian product has as many elements as the product of
the factor lengths. -/
theorem pyProduct_length {α : Type} (ls : List (List α)) :
    (pyProduct ls).length = (ls.map List.length).prod := by
  induction ls with
  | nil => simp [pyProduct]
  | cons l ls ih =>
      simp only [pyProduct, List.length_flatMap, Function.comp_def, List.length_map,
        List.map_cons, List.prod_cons]
      rw [sum_map_const_nat, ih]

/-- The specification-side description of the expansion order: the n-th
combination (for n below the count) picks its word for each parameter by the
mixed-radix digits of n, the last parameter varying fastest — row-major
iteration of the cartesian product in parameter insertion order. -/
def specCombo {α : Type} : List (List α) → Nat → Option (List α)
  | [], _ => some []
  | l :: ls, n =>
      (l[n / (ls.map List.length).prod]?).bind
        (fun x => (specCombo ls (n % (ls.map List.length).prod)).map (fun c => x :: c))

/-- Indexing a flatMap whose pieces all have length L. -/
theorem flatMap_getElem?_const_length {α β : Type} (f : α → List β) (L : Nat)
    (hf : ∀ x, (f x).length = L) (l : List α) :
    ∀ (n : Nat), n < l.length * L →
      (l.flatMap f)[n]? = (l[n / L]?).bind (fun x => (f x)[n % L]?) := by
  induction l with
  | nil => intro n hn; simp at hn
  | cons x xs ih =>
      intro n hn
      have hL : 0 < L := by
        rcases Nat.eq_zero_or_pos L with h0 | h0
        · rw [h0, Nat.mul_zero] at hn; exact absurd hn (Nat.not_lt_zero n)
        · exact h0
      rw [List.flatMap_cons, List.getElem?_append]
      by_cases hc : n < L
      · rw [if_pos (by rw [hf x]; exact hc), Nat.div_eq_of_lt hc, Nat.mod_eq_of_lt hc]
        simp
      · rw [if_neg (by rw [hf x]; exact hc), hf x]
        have hle : L ≤ n := le_of_not_lt hc
        have h2 : n - L < xs.length * L := by
          rw [List.length_cons, Nat.succ_mul] at hn
          omega
        rw [ih (n - L) h2, Nat.div_eq_sub_div hL hle, Nat.mod_eq_sub_mod hle]
        simp

/-- The n-th element of the row-major cartesian product is the mixed-radix
combination described by `specCombo`. -/
theorem pyProduct_getElem? {α : Type} :
    ∀ (ls : List (List α)) (n : Nat), n < (ls.map List.length).prod →
      (pyProduct ls)[n]? = specCombo ls n := by
  intro ls
  induction ls with
  | nil =>
      intro n hn
      simp only [List.map_nil, List.prod_nil] at hn
      have h0 : n = 0 := by omega
      subst h0
      rfl
  | cons l ls ih =>
      intro n hn
      rw [List.map_cons, List.prod_cons] at hn
      have hlen : ∀ x, ((pyProduct ls).map (fun c => x :: c)).length = (ls.map List.length).prod := by
        intro x
        rw [List.length_map, pyProduct_length]
      have hw : 0 < (ls.map List.length).prod := by
        rcases Nat.eq_zero_or_pos ((ls.map List.length).prod) with h0 | h0
        · rw [h0, Nat.mul_zero] at hn; exact absurd hn (Nat.not_lt_zero n)
        · exact h0
      have hmod : n % (ls.map List.length).prod < (ls.map List.length).prod :=
        Nat.mod_lt n hw
      have hstep := flatMap_getElem?_const_length
        (fun x => (pyProduct ls).map (fun c => x :: c)) ((ls.map List.length).prod)
        hlen l n hn
      simp only [pyProduct] at hstep ⊢
      rw [hstep]
      simp only [specCombo, List.getElem?_map, ih (n % (ls.map List.length).prod) hmod]

/-- C8: the reported count is the number of expanded questions, and the n-th
expanded question is the row-major cartesian combination of the word lists
in parameter insertion order (last parameter varying fastest), zipped with
the parameter names; the expansion is a pure function of the QuestionSet, so
repeated calls reproduce the same sequence. -/
theorem question_set_expansion (qs : QuestionSet) (n : Nat) (hn : n < qs.get_count) :
    qs.get_questions.length = qs.get_count ∧
    qs.get_questions[n]? = (specCombo (qs.word_sets.map Prod.snd) n).map
      (fun combo => { word_set := (qs.word_sets.map Prod.fst).zip combo
                      template := qs.template }) := by
  have hcount : ((qs.word_sets.map Prod.snd).map List.length).prod = qs.get_count := by
    rw [List.map_map]
    rfl
  constructor
  · unfold QuestionSet.get_questions
    rw [List.length_map, pyProduct_length, hcount]
  · unfold QuestionSet.get_questions
    rw [List.getElem?_map, pyProduct_getElem? (qs.word_sets.map Prod.snd) n (by rw [hcount]; exact hn)]

/-- Witness for C8 on a two-by-two question set: four questions, and index 2
is the combination pairing the second first-parameter word with the first
second-parameter word. -/
theorem question_set_expansion_witness :
    (QuestionSet.mk [TPart.var "country"]
        [("country", ["France", "Germany"]), ("year", ["2020", "2021"])]).get_questions.length =
      (QuestionSet.mk [TPart.var "country"]
        [("country", ["France", "Germany"]), ("year", ["2020", "2021"])]).get_count ∧
    (QuestionSet.mk [TPart.var "country"]
        [("country", ["France", "Germany"]), ("year", ["2020", "2021"])]).get_questions[2]? =
      (specCombo [["France", "Germany"], ["2020", "2021"]] 2).map
        (fun combo => { word_set := ["country", "year"].zip combo
                        template := [TPart.var "country"] }) :=
  question_set_expansion
    (QuestionSet.mk [TPart.var "country"]
      [("country", ["France", "Germany"]), ("year", ["2020", "2021"])]) 2 (by decide)

/-! ## Claims about the cache sweep -/

/-- Reduction of a failed bind in the Except monad. -/
theorem error_bind {ε α β : Type} (e : ε) (f : α → Except ε β) :
    (Except.error e >>= f) = Except.error e := rfl

/-- A sweep whose head lookup raises propagates that error. -/
theorem doc_sweep_cons_get_error (storage : Storage) (q0 : Question) (rest : List Question)
    (e : String) (hget : get_response storage q0 = Except.error e) :
    doc_sweep storage false (q0 :: rest) = Except.error e := by
  simp only [doc_sweep, Bool.false_eq_true, if_false, hget, error_bind]

/-- A sweep whose tail sweep raises propagates the tail error. -/
theorem doc_sweep_cons_rest_error (storage : Storage) (q0 : Question) (rest : List Question)
    (c : Option QueryResponse) (e : String)
    (hget : get_response storage q0 = Except.ok c)
    (hrec : doc_sweep storage false rest = Except.error e) :
    doc_sweep storage false (q0 :: rest) = Except.error e := by
  simp only [doc_sweep, Bool.false_eq_true, if_false, hget, ok_bind, hrec, error_bind]

/-- Sweep step for an uncached head question: it joins the misses. -/
theorem doc_sweep_cons_none (storage : Storage) (q0 : Question) (rest : List Question)
    (hs : List (Question × QueryResponse)) (ms : List Question)
    (hget : get_response storage q0 = Except.ok none)
    (hrec : doc_sweep storage false rest = Except.ok (hs, ms)) :
    doc_sweep storage false (q0 :: rest) = Except.ok (hs, q0 :: ms) := by
  simp only [doc_sweep, Bool.false_eq_true, if_false, hget, ok_bind, hrec]

/-- Sweep step for a cached head question: hit when its error is falsy,
miss when it is truthy. -/
theorem doc_sweep_cons_some (storage : Storage) (q0 : Question) (rest : List Question)
    (hs : List (Question × QueryResponse)) (ms : List Question) (r0 : QueryResponse)
    (hget : get_response storage q0 = Except.ok (some r0))
    (hrec : doc_sweep storage false rest = Except.ok (hs, ms)) :
    doc_sweep storage false (q0 :: rest) =
      (if strTruthy r0.error then Except.ok (hs, q0 :: ms)
       else Except.ok ((q0, r0) :: hs, ms)) := by
  simp only [doc_sweep, Bool.false_eq_true, if_false, hget, ok_bind, hrec]

/-- What one sweep step does: look up the head question, sweep the rest, and
prepend the head to the hit or miss side by the source condition. -/
theorem doc_sweep_cons_inv (storage : Storage) (q0 : Question) (rest : List Question)
    (hits : List (Question × QueryResponse)) (misses : List Question)
    (hsw : doc_sweep storage false (q0 :: rest) = Except.ok (hits, misses)) :
    ∃ hs ms, doc_sweep storage false rest = Except.ok (hs, ms) ∧
      ((∃ r0, get_response storage q0 = Except.ok (some r0) ∧ strTruthy r0.error = false ∧
          hits = (q0, r0) :: hs ∧ misses = ms) ∨
       (hits = hs ∧ misses = q0 :: ms ∧
         (get_response storage q0 = Except.ok none ∨
          ∃ r0, get_response storage q0 = Except.ok (some r0) ∧ strTruthy r0.error = true))) := by
  cases hget : get_response storage q0 with
  | error e =>
      rw [doc_sweep_cons_get_error storage q0 rest e hget] at hsw
      exact absurd hsw (by simp)
  | ok c =>
      cases hrec : doc_sweep storage false rest with
      | error e =>
          rw [doc_sweep_cons_rest_error storage q0 rest c e hget hrec] at hsw
          exact absurd hsw (by simp)
      | ok pr =>
          obtain ⟨hs, ms⟩ := pr
          refine ⟨hs, ms, rfl, ?_⟩
          cases c with
          | none =>
              rw [doc_sweep_cons_none storage q0 rest hs ms hget hrec] at hsw
              injection hsw with h
              exact Or.inr ⟨(congrArg Prod.fst h).symm, (congrArg Prod.snd h).symm, Or.inl rfl⟩
          | some r0 =>
              rw [doc_sweep_cons_some storage q0 rest hs ms r0 hget hrec] at hsw
              cases htr : strTruthy r0.error with
              | true =>
                  rw [htr, if_pos rfl] at hsw
                  injection hsw with h
                  exact Or.inr ⟨(congrArg Prod.fst h).symm, (congrArg Prod.snd h).symm,
                    Or.inr ⟨r0, rfl, htr⟩⟩
              | false =>
                  rw [htr, if_neg (by simp)] at hsw
                  injection hsw with h
                  exact Or.inl ⟨r0, rfl, htr, (congrArg Prod.fst h).symm,
                    (congrArg Prod.snd h).symm⟩

/-- The sweep classification invariant: every swept question whose stored
entry has a truthy error lands in the miss list, and every hit pair records
a stored entry whose error is falsy. -/
theorem doc_sweep_classification (storage : Storage) :
    ∀ (questions : List Question) (hits : List (Question × QueryResponse))
      (misses : List Question),
      doc_sweep storage false questions = Except.ok (hits, misses) →
      (∀ q r, q ∈ questions → get_response storage q = Except.ok (some r) →
          strTruthy r.error = true → q ∈ misses) ∧
      (∀ p, p ∈ hits → get_response storage p.1 = Except.ok (some p.2) ∧
          strTruthy p.2.error = false) := by
  intro questions
  induction questions with
  | nil =>
      intro hits misses hsw
      injection hsw with h
      have h1 : ([] : List (Question × QueryResponse)) = hits := congrArg Prod.fst h
      constructor
      · intro q r hq; exact absurd hq (List.not_mem_nil q)
      · intro p hp; rw [← h1] at hp; exact absurd hp (List.not_mem_nil p)
  | cons q0 rest ih =>
      intro hits misses hsw
      obtain ⟨hs, ms, hrec, hcase⟩ := doc_sweep_cons_inv storage q0 rest hits misses hsw
      obtain ⟨ihmiss, ihhit⟩ := ih hs ms hrec
      rcases hcase with ⟨r0, hget, htr, hhits, hmisses⟩ | ⟨hhits, hmisses, hside⟩
      · subst hhits; subst hmisses
        constructor
        · intro q r hq hr he
          rcases List.mem_cons.mp hq with hq0 | hqrest
          · subst hq0
            rw [hget] at hr
            injection hr with hr2
            injection hr2 with hr3
            rw [hr3] at htr
            rw [he] at htr
            exact absurd htr (by simp)
          · exact ihmiss q r hqrest hr he
        · intro p hp
          rcases List.mem_cons.mp hp with hp0 | hprest
          · subst hp0; exact ⟨hget, htr⟩
          · exact ihhit p hprest
      · subst hhits; subst hmisses
        constructor
        · intro q r hq hr he
          rcases List.mem_cons.mp hq with hq0 | hqrest
          · subst hq0; exact List.mem_cons_self _ _
          · exact List.mem_cons_of_mem q0 (ihmiss q r hqrest hr he)
        · intro p hp; exact ihhit p hp

/-- C3 counterexample: a stored response whose error is the empty string — a
non-null error — is classified as a doc hit by the sweep, not a miss: the
sweep tests the Python truthiness of the error, not its nullness. -/
theorem sweep_empty_string_error_is_hit :
    doc_sweep (fun kk => if kk = "q" then some ⟨some "payload", some ""⟩ else none)
        false [qLit] =
      Except.ok ([(qLit, ⟨some "payload", some ""⟩)], []) ∧
    (some "" : Option String) ≠ none := ⟨rfl, by decide⟩

/-- C3 amended: a question whose stored entry carries a truthy (non-empty)
error is classified as a miss by the next sweep without overwrite, and every
hit pair of that sweep records a present stored entry whose error is falsy
(null or empty). -/
theorem sweep_truthy_error_reclassified (storage : Storage) (questions : List Question)
    (hits : List (Question × QueryResponse)) (misses : List Question)
    (q : Question) (r : QueryResponse) (p : Question × QueryResponse)
    (hsw : doc_sweep storage false questions = Except.ok (hits, misses))
    (hq : q ∈ questions) (hr : get_response storage q = Except.ok (some r))
    (he : strTruthy r.error = true) (hp : p ∈ hits) :
    q ∈ misses ∧ get_response storage p.1 = Except.ok (some p.2) ∧
      strTruthy p.2.error = false := by
  obtain ⟨h1, h2⟩ := doc_sweep_classification storage questions hits misses hsw
  exact ⟨h1 q r hq hr he, (h2 p hp).1, (h2 p hp).2⟩

/-- Witness for the amended C3: of two literal questions, the one cached
with error boom is swept to the miss side while the error-free one is the
single hit. -/
theorem sweep_truthy_error_reclassified_witness :
    (Question.mk [] [TPart.lit "a"]) ∈ [Question.mk [] [TPart.lit "a"]] ∧
    get_response
        (fun kk => if kk = "a" then some ⟨some "p", some "boom"⟩
         else if kk = "b" then some ⟨some "p", none⟩ else none)
        (Question.mk [] [TPart.lit "b"]) =
      Except.ok (some ⟨some "p", none⟩) ∧
    strTruthy (QueryResponse.mk (some "p") none).error = false :=
  sweep_truthy_error_reclassified
    (fun kk => if kk = "a" then some ⟨some "p", some "boom"⟩
     else if kk = "b" then some ⟨some "p", none⟩ else none)
    [Question.mk [] [TPart.lit "a"], Question.mk [] [TPart.lit "b"]]
    [(Question.mk [] [TPart.lit "b"], ⟨some "p", none⟩)]
    [Question.mk [] [TPart.lit "a"]]
    (Question.mk [] [TPart.lit "a"]) ⟨some "p", some "boom"⟩
    (Question.mk [] [TPart.lit "b"], ⟨some "p", none⟩)
    rfl (by decide) rfl rfl (by decide)

/-! ## Claims about the structured query client -/

/-- An attempt that decodes a JSON body whose content then fails parsing or
validation (including the empty-content check made after decoding). -/
def body_parse_fails (parse : String → Except String String) : AttemptOutcome → Bool
  | .body raw =>
      raw.content.isEmpty ||
        (match parse (stripThink raw.content) with
         | .error _ => true
         | .ok _ => false)
  | _ => false

/-- When every remaining attempt decodes a JSON body whose content fails
parsing, the loop runs to the retry ceiling: all attempts are used, the
final retries counter is the last attempt index, parsing never succeeds,
and a parsing error is recorded. -/
theorem sonar_loop_all_fail (parse : String → Except String String)
    (outcomes : Nat → AttemptOutcome) (max_retries : Nat) :
    ∀ (fuel attempt : Nat) (res : SonarResult),
      attempt + fuel = max_retries → 0 < fuel →
      (∀ i, i < max_retries → body_parse_fails parse (outcomes i) = true) →
      res.parsing_success = false →
      (sonar_loop parse outcomes max_retries attempt fuel res).2 = max_retries ∧
      (sonar_loop parse outcomes max_retries attempt fuel res).1.retries_used =
        max_retries - 1 ∧
      (sonar_loop parse outcomes max_retries attempt fuel res).1.parsing_success = false ∧
      (sonar_loop parse outcomes max_retries attempt fuel res).1.parsing_error ≠ none := by
  intro fuel
  induction fuel with
  | zero => intro attempt res hsum hpos; exact absurd hpos (lt_irrefl 0)
  | succ f ih =>
      intro attempt res hsum hpos hall hps
      have hai : attempt < max_retries := by omega
      have hb := hall attempt hai
      cases ho : outcomes attempt with
      | httpError st tx => rw [ho] at hb; simp [body_parse_fails] at hb
      | emptyBody => rw [ho] at hb; simp [body_parse_fails] at hb
      | badJsonBody m => rw [ho] at hb; simp [body_parse_fails] at hb
      | otherExc m => rw [ho] at hb; simp [body_parse_fails] at hb
      | body raw =>
          rw [ho] at hb
          by_cases hlast : attempt = max_retries - 1
          · have hbeq : (attempt == max_retries - 1) = true := by
              rw [hlast]; exact beq_self_eq_true _
            have hf : f = 0 := by omega
            subst hf
            by_cases hempty : raw.content.isEmpty = true
            · simp only [sonar_loop, ho, hempty, if_true, hbeq]
              refine ⟨by omega, by simpa using hlast, by simpa using hps, by simp⟩
            · have hpf : ∃ e, parse (stripThink raw.content) = Except.error e := by
                simp only [body_parse_fails, hempty, Bool.false_or] at hb
                cases hpe : parse (stripThink raw.content) with
                | error e => exact ⟨e, rfl⟩
                | ok v => rw [hpe] at hb; simp at hb
              obtain ⟨e, hpe⟩ := hpf
              simp only [sonar_loop, ho, hempty, Bool.false_eq_true, if_false, hpe, hbeq,
                if_true]
              refine ⟨by omega, by simpa using hlast, by simpa using hps, by simp⟩
          · have hbeq : (attempt == max_retries - 1) = false := by
              exact beq_eq_false_iff_ne.mpr hlast
            have hfpos : 0 < f := by omega
            by_cases hempty : raw.content.isEmpty = true
            · simp only [sonar_loop, ho, hempty, if_true, hbeq, Bool.false_eq_true, if_false]
              exact ih (attempt + 1) _ (by omega) hfpos hall hps
            · have hpf : ∃ e, parse (stripThink raw.content) = Except.error e := by
                simp only [body_parse_fails, hempty, Bool.false_or] at hb
                cases hpe : parse (stripThink raw.content) with
                | error e => exact ⟨e, rfl⟩
                | ok v => rw [hpe] at hb; simp at hb
              obtain ⟨e, hpe⟩ := hpf
              simp only [sonar_loop, ho, hempty, Bool.false_eq_true, if_false, hpe, hbeq]
              exact ih (attempt + 1) _ (by omega) hfpos hall hps

/-- C6 counterexample: three attempts whose HTTP transport succeeds but whose
body is empty — content that always fails parsing — leave retries_used at 0
rather than max_retries - 1 = 2, because retries_used is assigned only after
the body has been decoded as JSON. -/
theorem sonar_empty_body_keeps_retries_zero :
    query_sonar_structured (fun _ => Except.error "parse")
        (fun _ => AttemptOutcome.emptyBody) 3 =
      ({ raw_response := none, structured_data := none, parsing_success := false,
         parsing_error := some "Empty response from API", retries_used := 0 }, 3) ∧
    (0 : Nat) ≠ 3 - 1 := ⟨rfl, by decide⟩

/-- C6 amended: when every attempt decodes a JSON body whose content fails
parsing or validation, the client performs exactly max_retries attempts and
returns (never raises) a result with retries_used = max_retries - 1, a false
parsing_success and a recorded parsing error; and whenever an attempt sees a
client error of status 400, the loop terminates right there regardless of
the retries remaining — a 400 is never retried. -/
theorem sonar_retry_ceiling_and_400 (parse : String → Except String String)
    (outcomes outcomes2 : Nat → AttemptOutcome) (max_retries j fuel : Nat)
    (res0 : SonarResult) (text : String)
    (h1 : 1 ≤ max_retries)
    (hall : ∀ i, i < max_retries → body_parse_fails parse (outcomes i) = true)
    (h400 : outcomes2 j = AttemptOutcome.httpError 400 text) :
    ((query_sonar_structured parse outcomes max_retries).2 = max_retries ∧
     (query_sonar_structured parse outcomes max_retries).1.retries_used =
       max_retries - 1 ∧
     (query_sonar_structured parse outcomes max_retries).1.parsing_success = false ∧
     (query_sonar_structured parse outcomes max_retries).1.parsing_error ≠ none) ∧
    sonar_loop parse outcomes2 max_retries j (fuel + 1) res0 =
      ({ res0 with parsing_error := some ("HTTP " ++ toString 400 ++ ": " ++ text) },
       j + 1) := by
  constructor
  · exact sonar_loop_all_fail parse outcomes max_retries max_retries 0 sonarInit
      (by omega) (by omega) hall rfl
  · simp [sonar_loop, h400]

/-- Witness for the amended C6: a parser that always fails over a non-empty
JSON body exhausts all three attempts with retries_used two, and a 400 at
attempt zero ends the loop after one attempt. -/
theorem sonar_retry_ceiling_and_400_witness :
    ((query_sonar_structured (fun _ => Except.error "parse")
        (fun _ => AttemptOutcome.body ⟨"notjson"⟩) 3).2 = 3 ∧
     (query_sonar_structured (fun _ => Except.error "parse")
        (fun _ => AttemptOutcome.body ⟨"notjson"⟩) 3).1.retries_used = 3 - 1 ∧
     (query_sonar_structured (fun _ => Except.error "parse")
        (fun _ => AttemptOutcome.body ⟨"notjson"⟩) 3).1.parsing_success = false ∧
     (query_sonar_structured (fun _ => Except.error "parse")
        (fun _ => AttemptOutcome.body ⟨"notjson"⟩) 3).1.parsing_error ≠ none) ∧
    sonar_loop (fun _ => Except.error "parse")
        (fun _ => AttemptOutcome.httpError 400 "bad") 3 0 (0 + 1) sonarInit =
      ({ sonarInit with parsing_error := some ("HTTP " ++ toString 400 ++ ": " ++ "bad") },
       0 + 1) :=
  sonar_retry_ceiling_and_400 (fun _ => Except.error "parse")
    (fun _ => AttemptOutcome.body ⟨"notjson"⟩)
    (fun _ => AttemptOutcome.httpError 400 "bad") 3 0 0 sonarInit "bad"
    (by omega) (by decide) rfl

/-! ## Claims about the result stream -/

/-- True of a computation that returned instead of raising. -/
def is_ok {α : Type} : Except String α → Bool
  | .ok _ => true
  | .error _ => false

/-- Draining a stream whose prefix raises nothing yields that whole prefix
first, then whatever the rest of the stream delivers. -/
theorem drain_append_ok (l1 l2 : List (Except String Answer))
    (h : l1.all is_ok = true) :
    drain (l1 ++ l2) =
      ((l1.filterMap Except.toOption) ++ (drain l2).1, (drain l2).2) := by
  induction l1 with
  | nil => simp [drain]
  | cons x xs ih =>
      cases x with
      | error e => simp [is_ok] at h
      | ok a =>
          have h2 : xs.all is_ok = true := by simpa [is_ok] using h
          have hx : drain ((Except.ok a :: xs) ++ l2) =
              (a :: (drain (xs ++ l2)).1, (drain (xs ++ l2)).2) := rfl
          rw [hx, ih h2]
          simp [List.filterMap_cons, Except.toOption]

/-- A raise-free stream segment delivers one Answer per element. -/
theorem length_filterMap_toOption_of_all_ok (l : List (Except String Answer))
    (h : l.all is_ok = true) : (l.filterMap Except.toOption).length = l.length := by
  induction l with
  | nil => rfl
  | cons x xs ih =>
      cases x with
      | error e => simp [is_ok] at h
      | ok a =>
          have h2 : xs.all is_ok = true := by simpa [is_ok] using h
          simp [List.filterMap_cons, Except.toOption, ih h2]

/-- Selecting by a list of in-range indices keeps one element per index. -/
theorem length_filterMap_getElem {α : Type} (l : List α) :
    ∀ (order : List Nat), (∀ i ∈ order, i < l.length) →
      (order.filterMap (fun i => l[i]?)).length = order.length := by
  intro order
  induction order with
  | nil => intro _; rfl
  | cons i rest ih =>
      intro hr
      have hi : i < l.length := hr i (List.mem_cons_self i rest)
      have ha : l[i]? = some (l[i]) := List.getElem?_eq_getElem hi
      simp [List.filterMap_cons, ha, ih (fun j hj => hr j (List.mem_cons_of_mem i hj))]

/-- If every miss worker returns, so does every selected worker of the
completion order. -/
theorem all_ok_selected (h : QueryHandler) (storage : Storage) (misses : List Question)
    (order : List Nat)
    (hmissok : (misses.map (miss_result h storage)).all is_ok = true) :
    ((order.filterMap (fun i => misses[i]?)).map (miss_result h storage)).all is_ok
      = true := by
  rw [List.all_eq_true] at hmissok ⊢
  intro x hx
  rw [List.mem_map] at hx
  obtain ⟨q, hq, hxq⟩ := hx
  have hqm : q ∈ misses := by
    rw [List.mem_filterMap] at hq
    obtain ⟨i, _, hgi⟩ := hq
    exact List.getElem?_mem hgi
  subst hxq
  exact hmissok _ (List.mem_map_of_mem _ hqm)

/-- Every swept question lands on exactly one side of the sweep. -/
theorem doc_sweep_length (storage : Storage) :
    ∀ (questions : List Question) (hits : List (Question × QueryResponse))
      (misses : List Question),
      doc_sweep storage false questions = Except.ok (hits, misses) →
      hits.length + misses.length = questions.length := by
  intro questions
  induction questions with
  | nil =>
      intro hits misses hsw
      injection hsw with h2
      have h1 : hits = [] := (congrArg Prod.fst h2).symm
      have h3 : misses = [] := (congrArg Prod.snd h2).symm
      subst h1; subst h3; rfl
  | cons q0 rest ih =>
      intro hits misses hsw
      obtain ⟨hs, ms, hrec, hcase⟩ := doc_sweep_cons_inv storage q0 rest hits misses hsw
      have hlen := ih hs ms hrec
      rcases hcase with ⟨r0, _, _, hhits, hmisses⟩ | ⟨hhits, hmisses, _⟩
      · subst hhits; subst hmisses; simp only [List.length_cons] at hlen ⊢; omega
      · subst hhits; subst hmisses; simp only [List.length_cons] at hlen ⊢; omega

/-- C5: in the batch stream, the cache-hit Answers form the initial segment
of the output in cache-sweep order — every hit Answer is yielded before any
miss Answer — and the miss Answers follow in the completion order of the
workers (the completion order is an arbitrary parameter, so no ordering
among the miss Answers is guaranteed). -/
theorem stream_hits_before_misses (h : QueryHandler) (storage : Storage)
    (qs : QuestionSet) (order : List Nat)
    (hits : List (Question × QueryResponse)) (misses : List Question)
    (hsw : doc_sweep storage false qs.get_questions = Except.ok (hits, misses))
    (hhitok : (hits.map (fun p => build_answer h p.1 (some p.2))).all is_ok = true) :
    (ask_multiple_stream h storage qs false order).1 =
      (hits.map (fun p => build_answer h p.1 (some p.2))).filterMap Except.toOption ++
      (drain ((order.filterMap (fun i => misses[i]?)).map (miss_result h storage))).1 ∧
    ((hits.map (fun p => build_answer h p.1 (some p.2))).filterMap Except.toOption).length
      = hits.length := by
  have hstream : ask_multiple_stream h storage qs false order =
      drain ((hits.map fun p => build_answer h p.1 (some p.2)) ++
        ((order.filterMap fun i => misses[i]?).map (miss_result h storage))) := by
    simp only [ask_multiple_stream, hsw]
  constructor
  · rw [hstream, drain_append_ok _ _ hhitok]
  · rw [length_filterMap_toOption_of_all_ok _ hhitok, List.length_map]

/-- Witness for C5: one cached hit and one miss — the stream opens with the
hit Answer and the miss Answer follows. -/
theorem stream_hits_before_misses_witness :
    (ask_multiple_stream demoHandler
        (fun kk => if kk = "a" then some ⟨some "pa", none⟩ else none)
        (QuestionSet.mk [TPart.var "w"] [("w", ["a", "b"])]) false [0]).1 =
      ([(Question.mk [("w", "a")] [TPart.var "w"], (⟨some "pa", none⟩ : QueryResponse))].map
        (fun p => build_answer demoHandler p.1 (some p.2))).filterMap Except.toOption ++
      (drain (([0].filterMap
          (fun i => [Question.mk [("w", "b")] [TPart.var "w"]][i]?)).map
        (miss_result demoHandler
          (fun kk => if kk = "a" then some ⟨some "pa", none⟩ else none)))).1 ∧
    (([(Question.mk [("w", "a")] [TPart.var "w"], (⟨some "pa", none⟩ : QueryResponse))].map
        (fun p => build_answer demoHandler p.1 (some p.2))).filterMap Except.toOption).length
      = [(Question.mk [("w", "a")] [TPart.var "w"], (⟨some "pa", none⟩ : QueryResponse))].length :=
  stream_hits_before_misses demoHandler
    (fun kk => if kk = "a" then some ⟨some "pa", none⟩ else none)
    (QuestionSet.mk [TPart.var "w"] [("w", ["a", "b"])]) [0]
    [(Question.mk [("w", "a")] [TPart.var "w"], ⟨some "pa", none⟩)]
    [Question.mk [("w", "b")] [TPart.var "w"]]
    rfl rfl

/-- A handler raising on the question rendered as the letter a. -/
def flakyHandler : QueryHandler :=
  { query := fun p => if p = "a" then Except.error "boom" else Except.ok ⟨some "payload", none⟩
    extract_fields := fun p => [("field", p)] }

/-- C2 counterexample: two expanded questions, an exception raised while
processing the first-completing one: the stream raises and delivers no
Answer at all — the other question Answer is never delivered, so a single
failure does abort the rest of the batch. -/
theorem stream_exception_aborts_batch :
    ask_multiple_stream flakyHandler emptyStorage
        (QuestionSet.mk [TPart.var "w"] [("w", ["a", "b"])]) false [0, 1] =
      ([], some "boom") ∧
    (QuestionSet.mk [TPart.var "w"] [("w", ["a", "b"])]).get_questions.length = 2 :=
  ⟨rfl, rfl⟩

/-- C2 amended: when no hit assembly and no miss worker raises, the batch
stream terminates without error and yields exactly one Answer per expanded
Question; when a worker does raise, the exception propagates out of the
async generator and ends the stream, so later Answers can be lost. -/
theorem stream_one_answer_per_question (h : QueryHandler) (storage : Storage)
    (qs : QuestionSet) (order : List Nat)
    (hits : List (Question × QueryResponse)) (misses : List Question)
    (hsw : doc_sweep storage false qs.get_questions = Except.ok (hits, misses))
    (horder : order.Perm (List.range misses.length))
    (hhitok : (hits.map (fun p => build_answer h p.1 (some p.2))).all is_ok = true)
    (hmissok : (misses.map (miss_result h storage)).all is_ok = true) :
    (ask_multiple_stream h storage qs false order).2 = none ∧
    (ask_multiple_stream h storage qs false order).1.length =
      qs.get_questions.length := by
  have hmok2 := all_ok_selected h storage misses order hmissok
  have hrange : ∀ i ∈ order, i < misses.length := by
    intro i hi
    exact List.mem_range.mp ((horder.mem_iff).mp hi)
  have hstream : ask_multiple_stream h storage qs false order =
      drain ((hits.map fun p => build_answer h p.1 (some p.2)) ++
        ((order.filterMap fun i => misses[i]?).map (miss_result h storage))) := by
    simp only [ask_multiple_stream, hsw]
  have hdm : drain (((order.filterMap fun i => misses[i]?)).map (miss_result h storage)) =
      ((((order.filterMap fun i => misses[i]?)).map
          (miss_result h storage)).filterMap Except.toOption, none) := by
    have h0 := drain_append_ok
      (((order.filterMap fun i => misses[i]?)).map (miss_result h storage)) [] hmok2
    simpa [drain] using h0
  rw [hstream, drain_append_ok _ _ hhitok, hdm]
  constructor
  · rfl
  · simp only [List.length_append, length_filterMap_toOption_of_all_ok _ hhitok,
      length_filterMap_toOption_of_all_ok _ hmok2, List.length_map,
      length_filterMap_getElem misses order hrange]
    rw [horder.length_eq, List.length_range]
    exact doc_sweep_length storage qs.get_questions hits misses hsw

/-- Witness for the amended C2: one cached hit and one miss worker that
returns — the stream ends cleanly with exactly two Answers for the two
expanded questions. -/
theorem stream_one_answer_per_question_witness :
    (ask_multiple_stream demoHandler
        (fun kk => if kk = "a" then some ⟨some "pa", none⟩ else none)
        (QuestionSet.mk [TPart.var "w"] [("w", ["a", "b"])]) false [0]).2 = none ∧
    (ask_multiple_stream demoHandler
        (fun kk => if kk = "a" then some ⟨some "pa", none⟩ else none)
        (QuestionSet.mk [TPart.var "w"] [("w", ["a", "b"])]) false [0]).1.length =
      (QuestionSet.mk [TPart.var "w"] [("w", ["a", "b"])]).get_questions.length :=
  stream_one_answer_per_question demoHandler
    (fun kk => if kk = "a" then some ⟨some "pa", none⟩ else none)
    (QuestionSet.mk [TPart.var "w"] [("w", ["a", "b"])]) [0]
    [(Question.mk [("w", "a")] [TPart.var "w"], ⟨some "pa", none⟩)]
    [Question.mk [("w", "b")] [TPart.var "w"]]
    rfl (by decide) rfl rfl

/-! ## Claims about the worker pool bound -/

/-- Updating one task phase moves the in-flight count by the weight
difference of the two phases. -/
theorem inflight_set (l : List TaskPhase) :
    ∀ (i : Nat) (a b : TaskPhase), l.get? i = some a →
      inflightCount (l.set i b) + phaseWeight a = inflightCount l + phaseWeight b := by
  induction l with
  | nil => intro i a b hg; simp at hg
  | cons x xs ih =>
      intro i a b hg
      cases i with
      | zero =>
          injection hg with hg2
          subst hg2
          simp only [List.set_cons_zero, inflightCount, List.map_cons, List.sum_cons]
          omega
      | succ j =>
          have hg2 : xs.get? j = some a := hg
          have hrec := ih j a b hg2
          simp only [List.set_cons_succ, inflightCount, List.map_cons, List.sum_cons] at hrec ⊢
          omega

/-- The semaphore invariant: in every reachable dispatch state, the counter
plus the number of in-flight queries equals the worker limit. -/
theorem pool_invariant (W n : Nat) (s : PoolState)
    (h : Relation.ReflTransGen PoolStep (pool_init W n) s) :
    s.sem + inflightCount s.tasks = W := by
  induction h with
  | refl => simp [pool_init, inflightCount, phaseWeight]
  | tail hab hbc ih =>
      rename_i b c
      cases hbc with
      | acquire i hg hpos =>
          have hset := inflight_set b.tasks i TaskPhase.notStarted TaskPhase.inFlight hg
          simp only [phaseWeight] at hset
          show (b.sem - 1) + inflightCount (b.tasks.set i TaskPhase.inFlight) = W
          omega
      | release i hg =>
          have hset := inflight_set b.tasks i TaskPhase.inFlight TaskPhase.done hg
          simp only [phaseWeight] at hset
          show (b.sem + 1) + inflightCount (b.tasks.set i TaskPhase.done) = W
          omega

/-- C9: in every dispatch-phase state reachable from the initial state with
worker limit W, the number of concurrently in-flight remote queries never
exceeds W. -/
theorem worker_pool_bound (W n : Nat) (s : PoolState)
    (hreach : Relation.ReflTransGen PoolStep (pool_init W n) s) :
    inflightCount s.tasks ≤ W := by
  have := pool_invariant W n s hreach
  omega

/-- Witness for C9: with a single permit and two tasks, the state after one
acquisition has one query in flight, within the bound. -/
theorem worker_pool_bound_witness :
    inflightCount [TaskPhase.inFlight, TaskPhase.notStarted] ≤ 1 :=
  worker_pool_bound 1 2 ⟨0, [TaskPhase.inFlight, TaskPhase.notStarted]⟩
    (Relation.ReflTransGen.single (PoolStep.acquire (pool_init 1 2) 0 rfl (by decide)))

end Researchq
